import Mathlib

/-!
Verification of the voice-operated form-collection core
(`voice_api`): the `FormState` field-progression state machine
(`voice_api/state.py` and `voice_api/app/state.py`, whose method bodies
coincide), the voice-activity-detector state machine (`voice_api/vad.py`),
the tool-call router (`voice_api/llm/handlers.py`), and the event
broadcaster (`voice_api/api/events.py`), shallowly embedded as executable
Lean definitions.

Python `float` timestamps and percentages are modelled as `ℚ`; Python
`dict`s (insertion-ordered, unique keys) as association lists with
overwrite-in-place insertion; a raised Python exception as the `.error`
case of `Except`.
-/

namespace VoiceApi

/-! ## Python dict primitives

`answers` and `validation_errors` are Python dicts used through
`d[k] = v`, `d.pop(k, None)`, `d.get(k, default)` and `len(d)`.  A dict is
modelled as its list of key-value pairs in insertion order; assignment
overwrites in place when the key is present and appends otherwise, exactly
as CPython dicts behave. -/

/-- `d[k] = v`: overwrite in place if `k` is a key, else append. -/
def dictInsert (k : String) (v : String) (d : List (String × String)) :
    List (String × String) :=
  if d.any (fun p => p.1 == k) then
    d.map (fun p => if p.1 == k then (k, v) else p)
  else
    d ++ [(k, v)]

/-- `d.pop(k, None)`: remove the entry for `k` if present. -/
def dictPop (k : String) (d : List (String × String)) :
    List (String × String) :=
  d.filter (fun p => p.1 != k)

/-- `d.get(k, default)`. -/
def dictGetD (d : List (String × String)) (k : String) (default : String) :
    String :=
  match d.find? (fun p => p.1 == k) with
  | some p => p.2
  | none => default

/-- `len(d)`. -/
def dictLen (d : List (String × String)) : Nat := d.length

/-! ## Field descriptors

`AnmeldungField` (`voice_api/core/fields.py`) / `FormField`
(`voice_api/schema.py`): only the attributes the handlers read are
carried (`field_id`, `label`, `description`, the validator type tag,
`required`, `examples`).  The concrete catalogue is static data owned by
the external field catalogue; theorems are stated over an arbitrary
catalogue. -/

structure FormField where
  field_id : String
  label : String
  description : String
  field_type : String
  required : Bool
  examples : List String
deriving Repr, DecidableEq

/-! ## FormState (`voice_api/state.py` lines 11-49, identical method
bodies in `voice_api/app/state.py` lines 22-104) -/

structure FormState where
  fields : List FormField
  current_index : Nat
  answers : List (String × String)
  validation_errors : List (String × String)
deriving Repr, DecidableEq

namespace FormState

/-- `current_field`: the field at `current_index`, or `None` past the end. -/
def current_field (s : FormState) : Option FormField :=
  if s.current_index < s.fields.length then s.fields.get? s.current_index
  else none

/-- `advance`: `self.current_index += 1; return self.current_field()`.
The increment is unconditional; the source has no saturation check. -/
def advance (s : FormState) : FormState × Option FormField :=
  let s' : FormState := { s with current_index := s.current_index + 1 }
  (s', s'.current_field)

/-- `is_complete`: `self.current_index >= len(self.fields)`. -/
def is_complete (s : FormState) : Bool :=
  s.fields.length ≤ s.current_index

/-- `record_value`: store the value and drop any previous error for the id. -/
def record_value (s : FormState) (field_id : String) (value : String) :
    FormState :=
  { s with
    answers := dictInsert field_id value s.answers
    validation_errors := dictPop field_id s.validation_errors }

/-- `set_error`: remember a validation error for a field. -/
def set_error (s : FormState) (field_id : String) (message : String) :
    FormState :=
  { s with validation_errors := dictInsert field_id message s.validation_errors }

/-- `progress_percent`: `100.0` when the catalogue (`total`) is empty,
else `min(100.0, (len(self.answers) / total) * 100)`. -/
def progress_percent (s : FormState) : ℚ :=
  if s.fields.length = 0 then 100
  else min 100 (((dictLen s.answers : ℚ) / (s.fields.length : ℚ)) * 100)

/-- Iterated `advance` (discarding the returned field, as callers that
loop past the end do). -/
def advanceIter (s : FormState) : Nat → FormState
  | 0 => s
  | k + 1 => (advanceIter s k).advance.1

end FormState

/-- States reachable from `init` through the public mutating operations
(`advance`, `record_value`, `set_error`; `current_field`, `is_complete`
and `progress_percent` are pure reads and do not change the state). -/
inductive Reachable (init : FormState) : FormState → Prop
  | refl : Reachable init init
  | advance {s : FormState} : Reachable init s → Reachable init s.advance.1
  | record {s : FormState} (field_id value : String) :
      Reachable init s → Reachable init (s.record_value field_id value)
  | setErr {s : FormState} (field_id message : String) :
      Reachable init s → Reachable init (s.set_error field_id message)

/-- A one-field catalogue used for concrete counterexamples. -/
def fieldA : FormField :=
  { field_id := "family_name_p1", label := "Family name",
    description := "Surname", field_type := "name", required := true,
    examples := ["Mueller"] }

/-- Initial `FormState()` over the one-field catalogue `[fieldA]`. -/
def initOne : FormState :=
  { fields := [fieldA], current_index := 0, answers := [],
    validation_errors := [] }

/-- The spec's wording for `progress_percent`:
`100 * |answers| / N`, clamped to `[0, 100]` (compared below with the
definition translated from the source). -/
def specProgressClamped (s : FormState) : ℚ :=
  max 0 (min 100 (100 * (dictLen s.answers : ℚ) / (s.fields.length : ℚ)))

/-! ## VoiceActivityDetector (`voice_api/vad.py`)

`process_frame` reads `time.time()` and classifies the frame through the
WebRTC backend or the RMS-energy fallback (`_is_speech_frame`), after
padding/truncating the raw bytes.  Clock and classifier are external
inputs of the state machine, so the embedding of the machine
(lines 140-179) takes the classification `is_speech : Bool` and the
timestamp `current_time : ℚ` as arguments of each step. -/

inductive SpeechState where
  | silence
  | speaking
  | speechEnded
deriving Repr, DecidableEq

/-- The `VADConfig` fields the state machine reads (`__post_init__`
validation and byte-level fields concern the external backend). -/
structure VADConfig where
  speech_start_frames : Nat
  speech_end_frames : Nat
  min_speech_duration : ℚ
  max_speech_duration : ℚ
deriving Repr, DecidableEq

/-- Defaults of `VADConfig`: 3 start frames, 10 end frames, 0.3 s minimum,
30.0 s maximum. -/
def defaultVADConfig : VADConfig :=
  { speech_start_frames := 3, speech_end_frames := 10,
    min_speech_duration := 3 / 10, max_speech_duration := 30 }

/-- `collections.deque(maxlen=n).append(x)`: append on the right,
discarding from the left beyond `maxlen`. -/
def dequeAppend (maxlen : Nat) (d : List Bool) (x : Bool) : List Bool :=
  if maxlen < (d ++ [x]).length then
    (d ++ [x]).drop ((d ++ [x]).length - maxlen)
  else d ++ [x]

/-- Iterated `dequeAppend` (used to describe how `speech_frames` evolves
across a run of frames). -/
def dequeAppendMany (maxlen : Nat) (d : List Bool) (xs : List Bool) :
    List Bool :=
  xs.foldl (dequeAppend maxlen) d

/-- The detector's mutable state: `self.state`, the two rolling deques and
the two timestamps. -/
structure VADState where
  state : SpeechState
  speech_frames : List Bool
  silence_frames : List Bool
  speech_start_time : Option ℚ
  last_speech_time : Option ℚ
deriving Repr, DecidableEq

/-- `reset()`: back to SILENCE with cleared deques and timing. -/
def vadResetState : VADState :=
  { state := .silence, speech_frames := [], silence_frames := [],
    speech_start_time := none, last_speech_time := none }

/-- `process_frame` state-machine body (lines 140-179): update the
rolling windows, then dispatch on the current state; returns
`self.state` after any mutation, alongside the new state.  The Python
expression `(self.speech_start_time or current_time)` falls through both
on `None` and on a stored time of exactly `0.0` (float falsiness), which
the translation reproduces. -/
def processFrame (cfg : VADConfig) (s : VADState) (is_speech : Bool)
    (current_time : ℚ) : SpeechState × VADState :=
  let speech_frames :=
    dequeAppend cfg.speech_start_frames s.speech_frames is_speech
  let silence_frames :=
    if s.state = .speaking then
      dequeAppend cfg.speech_end_frames s.silence_frames (!is_speech)
    else s.silence_frames
  match s.state with
  | .silence =>
      if speech_frames.length = cfg.speech_start_frames ∧
          speech_frames.all id = true then
        let s' : VADState :=
          { state := .speaking, speech_frames := speech_frames,
            silence_frames := [], speech_start_time := some current_time,
            last_speech_time := some current_time }
        (s'.state, s')
      else
        let s' : VADState :=
          { s with speech_frames := speech_frames,
                   silence_frames := silence_frames }
        (s'.state, s')
  | .speaking =>
      let last_speech_time :=
        if is_speech then some current_time else s.last_speech_time
      let start_or_now : ℚ :=
        match s.speech_start_time with
        | none => current_time
        | some st => if st = 0 then current_time else st
      let speech_duration := current_time - start_or_now
      if cfg.max_speech_duration < speech_duration then
        let s' : VADState :=
          { s with state := .speechEnded, speech_frames := speech_frames,
                   silence_frames := silence_frames,
                   last_speech_time := last_speech_time }
        (s'.state, s')
      else if silence_frames.length = cfg.speech_end_frames ∧
          silence_frames.all id = true then
        if cfg.min_speech_duration ≤ speech_duration then
          let s' : VADState :=
            { s with state := .speechEnded, speech_frames := speech_frames,
                     silence_frames := silence_frames,
                     last_speech_time := last_speech_time }
          (s'.state, s')
        else
          (vadResetState.state, vadResetState)
      else
        let s' : VADState :=
          { s with speech_frames := speech_frames,
                   silence_frames := silence_frames,
                   last_speech_time := last_speech_time }
        (s'.state, s')
  | .speechEnded =>
      let s' : VADState := { s with speech_frames := speech_frames }
      (s'.state, s')

/-- Feeding a sequence of (classification, timestamp) frames through the
detector, collecting the returned states. -/
def processSeq (cfg : VADConfig) (s : VADState) :
    List (Bool × ℚ) → List SpeechState × VADState
  | [] => ([], s)
  | (b, t) :: rest =>
      let step := processFrame cfg s b t
      let rec' := processSeq cfg step.2 rest
      (step.1 :: rec'.1, rec'.2)

/-! ## ToolCallRouter (`voice_api/llm/handlers.py`)

`handle_tool_calls(tool_call, session, form_state)` iterates
`tool_call.function_calls`, dispatching on `func_call.name` through a
chain of string comparisons, appending one `types.FunctionResponse` per
invocation and mutating `form_state` in place; the accumulated batch is
sent back over the session at the end, so an exception raised by any
branch aborts the whole call with no responses sent.  The validator
`validate_field` (`voice_api/app/validation.py`, a pure external
collaborator) and the PDF generation plus timestamped file write are
parameters of the embedding; `event_emitter.emit_sync` side effects are
collected into a list of events (payloads abbreviated to their
identifying fields; the `session_id` read from `voice_runner` is
external). -/

/-- `types.FunctionCall`: id, name, and arguments; the handler branches
read arguments only via `args.get(key, "")` on string values. -/
structure FunctionCall where
  id : String
  name : String
  args : List (String × String)
deriving Repr, DecidableEq

/-- The response payloads built by the handler branches. -/
inductive RespPayload where
  /-- `{"done": True}` -/
  | doneTrue
  /-- `{"done": False, "field": _field_to_payload(field)}` -/
  | nextField (field : FormField)
  /-- `{"is_valid": _, "message": _}` -/
  | validation (is_valid : Bool) (message : String)
  /-- `{"ok": False, "message": _}` -/
  | okFalse (message : String)
  /-- `{"ok": True, "progress_percent": _}` -/
  | saveOk (progress : ℚ)
  /-- `{"ok": True, "pdf_location": _, "pdf_size_bytes": _, "message": _}`
  (the success message is derived from the location) -/
  | pdfOk (location : String) (size : Nat)
  /-- `{"ok": False, "error": _, "message": "Failed to generate PDF. ..."}` -/
  | pdfFail (err : String)
  /-- `{"error": "Unhandled tool <name>"}` -/
  | unhandledErr (message : String)
deriving Repr, DecidableEq

/-- `types.FunctionResponse`. -/
structure FunctionResponse where
  id : String
  name : String
  response : RespPayload
deriving Repr, DecidableEq

/-- The `FormEvent`s the handler branches emit through
`event_emitter.emit_sync`, keyed by their `type` string and identifying
data. -/
inductive EmittedEvent where
  | fieldChanged (field_id : String)
  | validationResult (field_id : String) (is_valid : Bool)
  | fieldSaved (field_id : String) (value : String)
  | formComplete
deriving Repr, DecidableEq

/-- A raised Python exception crossing `handle_tool_calls`. -/
inductive PyError where
  | attributeError (message : String)
deriving Repr, DecidableEq

/-- One iteration of the `for func_call in tool_call.function_calls`
loop: the dispatch chain `get_next_form_field` / `validate_form_field` /
`navigate_to_field` / `save_form_field` / `generate_anmeldung_pdf` /
`else`-fallback, in source order.  The `navigate_to_field` branch calls
`form_state.navigate_to_field(field_id)`, but `FormState`
(`voice_api/app/state.py`) defines no method of that name, so the
attribute lookup raises `AttributeError`.  No branch tests for
`update_previous_field` or `get_all_answers` (both declared in
`voice_api/llm/tools.py`), so those names reach the `else` fallback. -/
def handleOne (valid : FormField → String → Bool × String)
    (pdf : List (String × String) → Except String (String × Nat))
    (s : FormState) (fc : FunctionCall) :
    Except PyError (FormState × FunctionResponse × List EmittedEvent) :=
  if fc.name = "get_next_form_field" then
    match s.current_field with
    | none => .ok (s, ⟨fc.id, fc.name, .doneTrue⟩, [])
    | some field =>
        .ok (s, ⟨fc.id, fc.name, .nextField field⟩,
          [.fieldChanged field.field_id])
  else if fc.name = "validate_form_field" then
    match s.current_field with
    | none =>
        .ok (s, ⟨fc.id, fc.name, .validation false
          "No field to validate. Call get_next_form_field first."⟩, [])
    | some field =>
        let value := dictGetD fc.args "value" ""
        let r := valid field value
        let s' := if r.1 = false then s.set_error field.field_id r.2 else s
        .ok (s', ⟨fc.id, fc.name, .validation r.1 r.2⟩,
          [.validationResult field.field_id r.1])
  else if fc.name = "navigate_to_field" then
    .error (.attributeError
      "FormState object has no attribute navigate_to_field")
  else if fc.name = "save_form_field" then
    match s.current_field with
    | none =>
        .ok (s, ⟨fc.id, fc.name, .okFalse
          "No field to save. Call get_next_form_field first."⟩, [])
    | some field =>
        let value := dictGetD fc.args "value" ""
        let s2 := (s.record_value field.field_id value).advance.1
        .ok (s2, ⟨fc.id, fc.name, .saveOk s2.progress_percent⟩,
          [.fieldSaved field.field_id value])
  else if fc.name = "generate_anmeldung_pdf" then
    match pdf s.answers with
    | .ok (path, size) =>
        .ok (s, ⟨fc.id, fc.name, .pdfOk path size⟩, [.formComplete])
    | .error e => .ok (s, ⟨fc.id, fc.name, .pdfFail e⟩, [])
  else
    .ok (s, ⟨fc.id, fc.name,
      .unhandledErr ("Unhandled tool " ++ fc.name)⟩, [])

/-- `handle_tool_calls` over a batch: thread the form state through the
loop, accumulating responses in invocation order; a raised exception
propagates (the batch send never happens). -/
def handleToolCalls (valid : FormField → String → Bool × String)
    (pdf : List (String × String) → Except String (String × Nat))
    (s : FormState) :
    List FunctionCall →
      Except PyError (FormState × List FunctionResponse × List EmittedEvent)
  | [] => .ok (s, [], [])
  | fc :: rest => do
      let one ← handleOne valid pdf s fc
      let remaining ← handleToolCalls valid pdf one.1 rest
      pure (remaining.1, one.2.1 :: remaining.2.1, one.2.2 ++ remaining.2.2)

/-- A second field for two-field concrete states. -/
def fieldB : FormField :=
  { field_id := "first_name_p1", label := "First name",
    description := "Given name", field_type := "name", required := true,
    examples := ["Hans"] }

/-- A validator instance that accepts everything (external collaborator
stand-in for concrete evaluations). -/
def validAccept : FormField → String → Bool × String :=
  fun _ _ => (true, "Looks good")

/-- A PDF backend stand-in whose generation fails. -/
def pdfUnavailable : List (String × String) → Except String (String × Nat) :=
  fun _ => .error "pdf backend unavailable"

/-- A validator instance that rejects everything with a fixed message. -/
def validReject : FormField → String → Bool × String :=
  fun _ _ => (false, "Value required")

/-- The state of `test_handler_events.py::test_update_previous_field_emits_event`:
`family_name_p1` recorded with `"OldValue"`, then advanced, so the
catalogue position is past that field and a correction is legitimate. -/
def c1State : FormState :=
  { fields := [fieldA, fieldB], current_index := 1,
    answers := [("family_name_p1", "OldValue")], validation_errors := [] }

/-! ## EventEmitter (`voice_api/api/events.py`)

`emit_sync(event)` returns early when there are no subscribers; otherwise
it iterates the queue subscribers, calling `queue.put_nowait(event)`
inside `try/except asyncio.QueueFull` (overflow is logged, the event is
dropped for that queue only), then the callable subscribers, calling
`_invoke_callback_sync` inside `try/except Exception` (a raising
callback is logged and isolated).  `_invoke_callback_sync` hands a
coroutine callback to its stored subscriber loop via
`asyncio.run_coroutine_threadsafe` without waiting when that loop is
running, logs-and-drops it when no running loop is stored, and calls a
synchronous callback directly.  Subscribers are modelled by the facts
those branches test (queue capacity and occupancy; whether a synchronous
callback raises; whether a stored loop exists and runs), and the two
subscriber sets as lists in iteration order. -/

/-- An `asyncio.Queue` subscriber: `maxsize` (0 = unbounded, as in
asyncio) and buffered events; `put_nowait` raises `QueueFull` iff the
queue is bounded and at capacity. -/
structure QueueSub where
  maxsize : Nat
  buffered : List EmittedEvent
deriving Repr, DecidableEq

/-- A callable subscriber as `_invoke_callback_sync` discriminates it. -/
inductive CallableSub where
  | sync (raises : Bool)
  | coroutine (hasLoop : Bool) (loopRunning : Bool)
deriving Repr, DecidableEq

/-- What happened to one subscriber during one `emit_sync`. -/
inductive DeliveryOutcome where
  | delivered
  | scheduled
  | droppedQueueFull
  | droppedNoLoop
  | errorLogged
deriving Repr, DecidableEq

/-- Exceptions that can cross one delivery attempt. -/
inductive EmitError where
  | queueFull
  | callbackExc (message : String)
deriving Repr, DecidableEq

/-- `queue.put_nowait(event)`. -/
def putNowait (ev : EmittedEvent) (q : QueueSub) :
    Except EmitError QueueSub :=
  if q.maxsize ≠ 0 ∧ q.maxsize ≤ q.buffered.length then .error .queueFull
  else .ok { q with buffered := q.buffered ++ [ev] }

/-- The queue-subscriber loop body:
`try: put_nowait; except QueueFull: log` — only `QueueFull` is caught. -/
def emitToQueue (ev : EmittedEvent) (q : QueueSub) :
    Except EmitError (QueueSub × DeliveryOutcome) :=
  match putNowait ev q with
  | .ok q' => .ok (q', .delivered)
  | .error .queueFull => .ok (q, .droppedQueueFull)
  | .error e => .error e

/-- `_invoke_callback_sync(callback, event, subscriber_loop)`; the
invocation of a raising synchronous callback surfaces the exception. -/
def invokeCallbackSync (c : CallableSub) :
    Except EmitError DeliveryOutcome :=
  match c with
  | .coroutine hasLoop loopRunning =>
      if hasLoop ∧ loopRunning then .ok .scheduled
      else .ok .droppedNoLoop
  | .sync raises =>
      if raises then .error (.callbackExc "callback raised")
      else .ok .delivered

/-- The callable-subscriber loop body:
`try: _invoke_callback_sync; except Exception: log` — everything is
caught. -/
def emitToCallable (c : CallableSub) : DeliveryOutcome :=
  match invokeCallbackSync c with
  | .ok o => o
  | .error _ => .errorLogged

/-- `emit_sync(event)`: early return with no subscribers, else the queue
loop then the callable loop; the returned lists pair each subscriber with
its outcome in iteration order. -/
def emitSync (ev : EmittedEvent) (qs : List QueueSub)
    (cs : List CallableSub) :
    Except EmitError (List (QueueSub × DeliveryOutcome) ×
      List DeliveryOutcome) :=
  if qs.length + cs.length = 0 then .ok ([], [])
  else do
    let qouts ← qs.mapM (emitToQueue ev)
    pure (qouts, cs.map emitToCallable)

/-- The per-queue effect of `emit_sync`, as a total function (shown below
to coincide with the `try/except`-guarded loop body). -/
def emitToQueueTotal (ev : EmittedEvent) (q : QueueSub) :
    QueueSub × DeliveryOutcome :=
  if q.maxsize ≠ 0 ∧ q.maxsize ≤ q.buffered.length then
    (q, .droppedQueueFull)
  else ({ q with buffered := q.buffered ++ [ev] }, .delivered)

/-! ### Supporting lemmas for the FormState claims -/

theorem dictInsert_length_ge (k v : String) (d : List (String × String)) :
    d.length ≤ (dictInsert k v d).length := by
  unfold dictInsert
  split
  · simp
  · simp

theorem advance_fst_fields (s : FormState) : s.advance.1.fields = s.fields := rfl

theorem advance_fst_current_index (s : FormState) :
    s.advance.1.current_index = s.current_index + 1 := rfl

theorem advanceIter_fields (s : FormState) (k : Nat) :
    (FormState.advanceIter s k).fields = s.fields := by
  induction k with
  | zero => rfl
  | succ n ih => simpa [FormState.advanceIter, FormState.advance] using ih

theorem advanceIter_current_index (s : FormState) (k : Nat) :
    (FormState.advanceIter s k).current_index = s.current_index + k := by
  induction k with
  | zero => rfl
  | succ n ih => simp [FormState.advanceIter, FormState.advance, ih]; omega

theorem record_value_fields (s : FormState) (id v : String) :
    (s.record_value id v).fields = s.fields := rfl

/-! ### Supporting lemmas for the VAD claims -/

theorem dequeAppend_of_lt (m : Nat) (d : List Bool) (x : Bool)
    (h : d.length + 1 ≤ m) : dequeAppend m d x = d ++ [x] := by
  unfold dequeAppend
  rw [if_neg]
  simp only [List.length_append, List.length_singleton]
  omega

theorem dequeAppend_replicate_true (m j : Nat) (h : j + 1 ≤ m) :
    dequeAppend m (List.replicate j true) true =
      List.replicate (j + 1) true := by
  rw [dequeAppend_of_lt m _ true (by simpa using h), ← List.replicate_succ']

theorem dequeAppend_all_false (m : Nat) (d : List Bool) (h : 0 < m) :
    (dequeAppend m d false).all id = false := by
  unfold dequeAppend
  split
  · rw [List.drop_append_of_le_length
      (by simp only [List.length_append, List.length_singleton]; omega)]
    simp
  · simp

theorem processFrame_silence_grow (cfg : VADConfig) (j : Nat)
    (silf : List Bool) (sst lst : Option ℚ) (t : ℚ)
    (hj : j + 1 < cfg.speech_start_frames) :
    processFrame cfg
      ⟨.silence, List.replicate j true, silf, sst, lst⟩ true t =
    (.silence, ⟨.silence, List.replicate (j + 1) true, silf, sst, lst⟩) := by
  simp [processFrame,
    dequeAppend_replicate_true cfg.speech_start_frames j (le_of_lt hj),
    Nat.ne_of_lt hj]

theorem processFrame_silence_trigger (cfg : VADConfig)
    (silf : List Bool) (sst lst : Option ℚ) (t : ℚ)
    (ha : 0 < cfg.speech_start_frames) :
    processFrame cfg
      ⟨.silence, List.replicate (cfg.speech_start_frames - 1) true,
        silf, sst, lst⟩ true t =
    (.speaking, ⟨.speaking, List.replicate cfg.speech_start_frames true,
      [], some t, some t⟩) := by
  have hrw : cfg.speech_start_frames - 1 + 1 = cfg.speech_start_frames := by
    omega
  simp [processFrame,
    dequeAppend_replicate_true cfg.speech_start_frames
      (cfg.speech_start_frames - 1) (by omega), hrw]

theorem processFrame_silence_nofire (cfg : VADConfig)
    (sf silf : List Bool) (sst lst : Option ℚ) (t : ℚ)
    (ha : 0 < cfg.speech_start_frames) :
    processFrame cfg ⟨.silence, sf, silf, sst, lst⟩ false t =
    (.silence, ⟨.silence,
      dequeAppend cfg.speech_start_frames sf false, silf, sst, lst⟩) := by
  simp [processFrame, dequeAppend_all_false cfg.speech_start_frames sf ha]

theorem processFrame_speaking_silent (cfg : VADConfig) (sf : List Bool)
    (j : Nat) (st : ℚ) (lt : Option ℚ) (t : ℚ)
    (hst : st ≠ 0) (hj : j + 1 < cfg.speech_end_frames)
    (hmax : ¬ (cfg.max_speech_duration < t - st)) :
    processFrame cfg
      ⟨.speaking, sf, List.replicate j true, some st, lt⟩ false t =
    (.speaking, ⟨.speaking, dequeAppend cfg.speech_start_frames sf false,
      List.replicate (j + 1) true, some st, lt⟩) := by
  simp [processFrame, hst, hmax, Nat.ne_of_lt hj,
    dequeAppend_replicate_true cfg.speech_end_frames j (le_of_lt hj)]

theorem processFrame_speaking_end (cfg : VADConfig) (sf : List Bool)
    (st : ℚ) (lt : Option ℚ) (t : ℚ)
    (hst : st ≠ 0) (he : 0 < cfg.speech_end_frames)
    (hmin : cfg.min_speech_duration ≤ t - st) :
    (processFrame cfg
      ⟨.speaking, sf, List.replicate (cfg.speech_end_frames - 1) true,
        some st, lt⟩ false t).1 = .speechEnded := by
  have hrw : cfg.speech_end_frames - 1 + 1 = cfg.speech_end_frames := by
    omega
  by_cases hmx : cfg.max_speech_duration < t - st
  · simp [processFrame, hst, hmx]
  · simp [processFrame, hst, hmx, hmin,
      dequeAppend_replicate_true cfg.speech_end_frames
        (cfg.speech_end_frames - 1) (by omega), hrw]

theorem processFrame_speaking_reset (cfg : VADConfig) (sf : List Bool)
    (st : ℚ) (lt : Option ℚ) (t : ℚ)
    (hst : st ≠ 0) (he : 0 < cfg.speech_end_frames)
    (hmax : ¬ (cfg.max_speech_duration < t - st))
    (hmin : ¬ (cfg.min_speech_duration ≤ t - st)) :
    processFrame cfg
      ⟨.speaking, sf, List.replicate (cfg.speech_end_frames - 1) true,
        some st, lt⟩ false t =
    (.silence, vadResetState) := by
  have hrw : cfg.speech_end_frames - 1 + 1 = cfg.speech_end_frames := by
    omega
  simp [processFrame, hst, hmax, hmin, vadResetState,
    dequeAppend_replicate_true cfg.speech_end_frames
      (cfg.speech_end_frames - 1) (by omega), hrw]

theorem processSeq_append (cfg : VADConfig) (xs : List (Bool × ℚ)) :
    ∀ (ys : List (Bool × ℚ)) (s : VADState),
    processSeq cfg s (xs ++ ys) =
      ((processSeq cfg s xs).1 ++
        (processSeq cfg (processSeq cfg s xs).2 ys).1,
       (processSeq cfg (processSeq cfg s xs).2 ys).2) := by
  induction xs with
  | nil => intro ys s; simp [processSeq]
  | cons p rest ih =>
      intro ys s
      obtain ⟨b, t⟩ := p
      simp [processSeq, ih]

theorem silenceRun (cfg : VADConfig) (ts : List ℚ) :
    ∀ (j : Nat) (silf : List Bool) (sst lst : Option ℚ),
    j + ts.length < cfg.speech_start_frames →
    processSeq cfg ⟨.silence, List.replicate j true, silf, sst, lst⟩
      (ts.map (fun t => (true, t))) =
    (List.replicate ts.length .silence,
      ⟨.silence, List.replicate (j + ts.length) true, silf, sst, lst⟩) := by
  induction ts with
  | nil => intro j silf sst lst h; simp [processSeq]
  | cons t rest ih =>
      intro j silf sst lst h
      simp only [List.map_cons, processSeq, List.length_cons]
      rw [processFrame_silence_grow cfg j silf sst lst t (by
        simp only [List.length_cons] at h; omega)]
      rw [ih (j + 1) silf sst lst (by
        simp only [List.length_cons] at h; omega)]
      simp only [List.length_cons, List.replicate_succ]
      have hc : j + 1 + rest.length = j + (rest.length + 1) := by omega
      rw [hc]

theorem speakingRun (cfg : VADConfig) (ts : List ℚ) :
    ∀ (j : Nat) (sf : List Bool) (st : ℚ) (lt : Option ℚ),
    st ≠ 0 → j + ts.length < cfg.speech_end_frames →
    (∀ t ∈ ts, ¬ (cfg.max_speech_duration < t - st)) →
    processSeq cfg ⟨.speaking, sf, List.replicate j true, some st, lt⟩
      (ts.map (fun t => (false, t))) =
    (List.replicate ts.length .speaking,
      ⟨.speaking,
        dequeAppendMany cfg.speech_start_frames sf
          (List.replicate ts.length false),
        List.replicate (j + ts.length) true, some st, lt⟩) := by
  induction ts with
  | nil => intro j sf st lt hst h hmax; simp [processSeq, dequeAppendMany]
  | cons t rest ih =>
      intro j sf st lt hst h hmax
      simp only [List.map_cons, processSeq, List.length_cons]
      rw [processFrame_speaking_silent cfg sf j st lt t hst (by
        simp only [List.length_cons] at h; omega)
        (hmax t (List.mem_cons_self t rest))]
      rw [ih (j + 1) _ st lt hst (by
        simp only [List.length_cons] at h; omega)
        (fun u hu => hmax u (List.mem_cons_of_mem t hu))]
      simp only [List.length_cons, List.replicate_succ,
        dequeAppendMany, List.foldl_cons]
      have hc : j + 1 + rest.length = j + (rest.length + 1) := by omega
      rw [hc]

theorem processFrame_ended (cfg : VADConfig) (s : VADState)
    (h : s.state = .speechEnded) (b : Bool) (t : ℚ) :
    processFrame cfg s b t =
      (.speechEnded,
       { s with speech_frames :=
          dequeAppend cfg.speech_start_frames s.speech_frames b }) := by
  obtain ⟨st0, sf, silf, sst, lst⟩ := s
  simp only [VADState.state] at h
  subst h
  simp [processFrame]

theorem silenceFalseRun (cfg : VADConfig) (ts : List ℚ)
    (ha : 0 < cfg.speech_start_frames) :
    ∀ (s : VADState), s.state = .silence →
    (processSeq cfg s (ts.map (fun t => (false, t)))).1 =
      List.replicate ts.length .silence ∧
    (processSeq cfg s (ts.map (fun t => (false, t)))).2.state = .silence := by
  induction ts with
  | nil => intro s hs; simp [processSeq, hs]
  | cons t rest ih =>
      intro s hs
      obtain ⟨st0, sf, silf, sst, lst⟩ := s
      simp only [VADState.state] at hs
      subst hs
      simp only [List.map_cons, processSeq, List.length_cons]
      rw [processFrame_silence_nofire cfg sf silf sst lst t ha]
      have := ih ⟨.silence, dequeAppend cfg.speech_start_frames sf false,
        silf, sst, lst⟩ rfl
      exact ⟨by rw [List.replicate_succ]; simpa using this.1, this.2⟩

/-- The synthetic burst prefix: from the reset state,
`speech_start_frames` speech-classified frames (times `ts1 ++ [tA]`)
followed by `speech_end_frames - 1` silence-classified frames (times
`ts2`) leave the detector SPEAKING, having reported SILENCE on every
frame before the triggering one and SPEAKING from it onwards. -/
theorem burstPrefixRun (cfg : VADConfig) (ts1 ts2 : List ℚ) (tA : ℚ)
    (ha : 0 < cfg.speech_start_frames) (he : 0 < cfg.speech_end_frames)
    (h1 : ts1.length = cfg.speech_start_frames - 1)
    (h2 : ts2.length = cfg.speech_end_frames - 1)
    (htA : tA ≠ 0)
    (hmax2 : ∀ t ∈ ts2, ¬ (cfg.max_speech_duration < t - tA)) :
    processSeq cfg vadResetState
      (ts1.map (fun t => (true, t)) ++
        (true, tA) :: ts2.map (fun t => (false, t))) =
    (List.replicate (cfg.speech_start_frames - 1) .silence ++
      .speaking :: List.replicate (cfg.speech_end_frames - 1) .speaking,
     ⟨.speaking,
      dequeAppendMany cfg.speech_start_frames
        (List.replicate cfg.speech_start_frames true)
        (List.replicate (cfg.speech_end_frames - 1) false),
      List.replicate (cfg.speech_end_frames - 1) true,
      some tA, some tA⟩) := by
  have hA := silenceRun cfg ts1 0 [] none none (by rw [h1]; omega)
  rw [Nat.zero_add, h1] at hA
  have hres : vadResetState =
      (⟨.silence, List.replicate 0 true, [], none, none⟩ : VADState) := rfl
  rw [hres, processSeq_append, hA]
  dsimp only
  simp only [processSeq]
  rw [processFrame_silence_trigger cfg [] none none tA ha]
  dsimp only
  have hC := speakingRun cfg ts2 0
    (List.replicate cfg.speech_start_frames true) tA (some tA) htA
    (by rw [h2]; omega) hmax2
  rw [Nat.zero_add, h2] at hC
  have hz : (⟨.speaking, List.replicate cfg.speech_start_frames true,
      List.replicate 0 true, some tA, some tA⟩ : VADState) =
      ⟨.speaking, List.replicate cfg.speech_start_frames true,
        [], some tA, some tA⟩ := rfl
  rw [hz] at hC
  rw [hC]

theorem progress_le_100 (s : FormState) : s.progress_percent ≤ 100 := by
  unfold FormState.progress_percent
  split
  · exact le_refl 100
  · exact min_le_left _ _

theorem progress_nonneg (s : FormState) : 0 ≤ s.progress_percent := by
  unfold FormState.progress_percent
  split
  · norm_num
  · exact le_min (by norm_num) (by positivity)

/-! ### Supporting lemmas for the EventEmitter claim -/

theorem emitToQueue_eq_total (ev : EmittedEvent) (q : QueueSub) :
    emitToQueue ev q = .ok (emitToQueueTotal ev q) := by
  by_cases h : q.maxsize ≠ 0 ∧ q.maxsize ≤ q.buffered.length
  · simp [emitToQueue, putNowait, emitToQueueTotal, h]
  · simp [emitToQueue, putNowait, emitToQueueTotal, h]

theorem mapM_emitToQueue (ev : EmittedEvent) (qs : List QueueSub) :
    qs.mapM (emitToQueue ev) = .ok (qs.map (emitToQueueTotal ev)) := by
  induction qs with
  | nil => rfl
  | cons q rest ih =>
      rw [List.mapM_cons, emitToQueue_eq_total, ih]
      rfl

end VoiceApi

/-! ## Claims C3, C4, C5: the FormState progression machine -/

/-- C3 counterexample: over the one-field catalogue, after one `advance`
the state is complete with `current_index = len(fields) = 1`, but a
further `advance` is not a no-op: `current_index` becomes `2`, so it does
not remain equal to `len(fields)` as the claim states. -/
theorem C3_counterexample :
    (VoiceApi.FormState.advanceIter VoiceApi.initOne 1).is_complete = true ∧
    (VoiceApi.FormState.advanceIter VoiceApi.initOne 1).current_index =
      VoiceApi.initOne.fields.length ∧
    ¬ ((VoiceApi.FormState.advanceIter VoiceApi.initOne 2).current_index =
      VoiceApi.initOne.fields.length) := by
  refine ⟨by decide, by decide, by decide⟩

/-- C3 amended: `advance()` increments `current_index` by exactly one but
does not saturate: `k` further calls from any state add exactly `k`.
After repeatedly calling `advance()` past the end, `is_complete()` does
remain `true`, while `current_index` keeps growing beyond `len(fields)`
instead of staying equal to it. -/
theorem C3_advance_increments_without_saturation
    (s : VoiceApi.FormState) (k : Nat) (h : s.is_complete = true) :
    s.advance.1.current_index = s.current_index + 1 ∧
    (VoiceApi.FormState.advanceIter s k).current_index = s.current_index + k ∧
    (VoiceApi.FormState.advanceIter s k).is_complete = true := by
  refine ⟨rfl, VoiceApi.advanceIter_current_index s k, ?_⟩
  unfold VoiceApi.FormState.is_complete at h ⊢
  rw [VoiceApi.advanceIter_fields, VoiceApi.advanceIter_current_index]
  simp only [decide_eq_true_eq] at h ⊢
  omega

/-- C3 witness: the amended theorem applied to the completed one-field
state (`current_index = 1`) with three further advances. -/
theorem C3_witness :
    (VoiceApi.FormState.advanceIter
      (VoiceApi.FormState.advanceIter VoiceApi.initOne 1) 3).current_index = 4 ∧
    (VoiceApi.FormState.advanceIter
      (VoiceApi.FormState.advanceIter VoiceApi.initOne 1) 3).is_complete = true := by
  have h := C3_advance_increments_without_saturation
    (VoiceApi.FormState.advanceIter VoiceApi.initOne 1) 3 (by decide)
  exact ⟨h.2.1.trans (by decide), h.2.2⟩

/-- C4 counterexample: the state obtained from the initial one-field
state by two `advance` calls is reachable, is complete, and has
`current_index = 2 > 1 = len(fields)`, violating both the claimed bound
`current_index ∈ [0, len(fields)]` and the claimed equivalence
`is_complete ⇔ current_index == len(fields)`. -/
theorem C4_counterexample :
    VoiceApi.Reachable VoiceApi.initOne
      (VoiceApi.FormState.advanceIter VoiceApi.initOne 2) ∧
    (VoiceApi.FormState.advanceIter VoiceApi.initOne 2).is_complete = true ∧
    (VoiceApi.FormState.advanceIter VoiceApi.initOne 2).current_index = 2 ∧
    VoiceApi.initOne.fields.length = 1 := by
  refine ⟨VoiceApi.Reachable.advance (VoiceApi.Reachable.advance .refl),
    by decide, by decide, by decide⟩

/-- C4 amended: along every sequence of the public operations the field
catalogue never changes, `current_index` never decreases (it is a natural
number, so `0 ≤ current_index` always holds), and `is_complete()` is true
iff `current_index ≥ len(fields)`; the upper bound
`current_index ≤ len(fields)` does not hold because `advance` does not
saturate. -/
theorem C4_reachable_invariant (init s : VoiceApi.FormState)
    (h : VoiceApi.Reachable init s) :
    s.fields = init.fields ∧
    init.current_index ≤ s.current_index ∧
    (s.is_complete = true ↔ s.fields.length ≤ s.current_index) := by
  induction h with
  | refl =>
      refine ⟨rfl, le_refl _, ?_⟩
      unfold VoiceApi.FormState.is_complete
      simp
  | advance _ ih =>
      refine ⟨ih.1, ?_, ?_⟩
      · rw [VoiceApi.advance_fst_current_index]; omega
      · unfold VoiceApi.FormState.is_complete
        simp
  | record field_id value _ ih =>
      exact ⟨ih.1, ih.2.1, by unfold VoiceApi.FormState.is_complete; simp⟩
  | setErr field_id message _ ih =>
      exact ⟨ih.1, ih.2.1, by unfold VoiceApi.FormState.is_complete; simp⟩

/-- C4 witness: the amended invariant evaluated at the initial one-field
state itself. -/
theorem C4_witness :
    VoiceApi.initOne.fields = VoiceApi.initOne.fields ∧
    VoiceApi.initOne.current_index ≤ VoiceApi.initOne.current_index ∧
    (VoiceApi.initOne.is_complete = true ↔
      VoiceApi.initOne.fields.length ≤ VoiceApi.initOne.current_index) :=
  C4_reachable_invariant VoiceApi.initOne VoiceApi.initOne .refl

/-- C5 counterexample: the one-field state advanced once (no value ever
recorded) is complete, yet `progress_percent()` is `0`, not `100`: the
claimed equivalence `progress == 100 ⇔ is_complete()` fails, because
progress counts `answers` while completion counts `current_index`. -/
theorem C5_counterexample :
    (VoiceApi.FormState.advanceIter VoiceApi.initOne 1).is_complete = true ∧
    (VoiceApi.FormState.advanceIter VoiceApi.initOne 1).progress_percent = 0 ∧
    ¬ ((VoiceApi.FormState.advanceIter VoiceApi.initOne 1).progress_percent
      = 100) := by
  have hp : (VoiceApi.FormState.advanceIter VoiceApi.initOne 1).progress_percent
      = 0 := by
    norm_num [VoiceApi.FormState.advanceIter, VoiceApi.FormState.advance,
      VoiceApi.FormState.progress_percent, VoiceApi.dictLen, VoiceApi.initOne]
  refine ⟨by decide, hp, by rw [hp]; norm_num⟩

/-- C5 amended: over a non-empty catalogue, `progress_percent()` equals
the spec's formula `100 * |answers| / len(fields)` clamped to `[0, 100]`,
is monotonically non-decreasing under `record_value` (in any order, so in
particular in catalogue order), and equals exactly `100` iff
`|answers| ≥ len(fields)` — not iff `is_complete()`, which tracks
`current_index` independently of `answers`. -/
theorem C5_progress_formula (s : VoiceApi.FormState) (id value : String)
    (h : 0 < s.fields.length) :
    s.progress_percent = VoiceApi.specProgressClamped s ∧
    0 ≤ s.progress_percent ∧ s.progress_percent ≤ 100 ∧
    s.progress_percent ≤ (s.record_value id value).progress_percent ∧
    (s.progress_percent = 100 ↔
      s.fields.length ≤ VoiceApi.dictLen s.answers) := by
  have hne : s.fields.length ≠ 0 := Nat.pos_iff_ne_zero.mp h
  have hnpos : (0 : ℚ) < (s.fields.length : ℚ) := by exact_mod_cast h
  refine ⟨?_, VoiceApi.progress_nonneg s, VoiceApi.progress_le_100 s, ?_, ?_⟩
  · unfold VoiceApi.FormState.progress_percent VoiceApi.specProgressClamped
    rw [if_neg hne, max_eq_right (le_min (by norm_num) (by positivity))]
    congr 1
    ring
  · unfold VoiceApi.FormState.progress_percent
    rw [VoiceApi.record_value_fields, if_neg hne, if_neg hne]
    refine min_le_min (le_refl _) ?_
    have hlen : (VoiceApi.dictLen s.answers : ℚ) ≤
        (VoiceApi.dictLen (s.record_value id value).answers : ℚ) := by
      exact_mod_cast VoiceApi.dictInsert_length_ge id value s.answers
    gcongr
  · unfold VoiceApi.FormState.progress_percent
    rw [if_neg hne, min_eq_left_iff, div_mul_eq_mul_div, le_div_iff₀ hnpos]
    constructor
    · intro h1
      have h2 : (s.fields.length : ℚ) ≤ (VoiceApi.dictLen s.answers : ℚ) := by
        nlinarith
      exact_mod_cast h2
    · intro h1
      have h2 : (s.fields.length : ℚ) ≤ (VoiceApi.dictLen s.answers : ℚ) := by
        exact_mod_cast h1
      nlinarith

/-- C5 witness: the amended statement evaluated on the one-field state
with its single field recorded (progress exactly `100`). -/
theorem C5_witness :
    (VoiceApi.initOne.record_value "family_name_p1" "Mueller").progress_percent
      = VoiceApi.specProgressClamped
        (VoiceApi.initOne.record_value "family_name_p1" "Mueller") ∧
    ((VoiceApi.initOne.record_value "family_name_p1" "Mueller").progress_percent
      = 100 ↔
      (VoiceApi.initOne.record_value "family_name_p1" "Mueller").fields.length ≤
        VoiceApi.dictLen
          (VoiceApi.initOne.record_value "family_name_p1" "Mueller").answers) := by
  have h := C5_progress_formula
    (VoiceApi.initOne.record_value "family_name_p1" "Mueller") "x" "y"
    (by decide)
  exact ⟨h.1, h.2.2.2.2⟩

/-! ## Claims C6, C7, C10: the VAD state machine -/

/-- C6 confirmed: starting from the reset state, for a synthetic sequence
of `speech_start_frames` speech-classified frames (timestamps
`ts1 ++ [tA]`, positive) followed by `speech_end_frames` silence-classified
frames (timestamps `ts2 ++ [tB]`), where no SPEAKING frame of `ts2`
exceeds `max_speech_duration` and the active duration `tB - tA` is at
least `min_speech_duration`, the detector reports SILENCE on the first
`speech_start_frames - 1` frames, SPEAKING from exactly the
`speech_start_frames`-th frame, and SPEECH_ENDED exactly on the
`speech_end_frames`-th trailing silence frame — and at no earlier frame. -/
theorem C6_vad_transition_timing (cfg : VoiceApi.VADConfig)
    (ts1 ts2 : List ℚ) (tA tB : ℚ)
    (ha : 0 < cfg.speech_start_frames) (he : 0 < cfg.speech_end_frames)
    (h1 : ts1.length = cfg.speech_start_frames - 1)
    (h2 : ts2.length = cfg.speech_end_frames - 1)
    (htA : 0 < tA)
    (hmax : ∀ t ∈ ts2, t - tA ≤ cfg.max_speech_duration)
    (hmin : cfg.min_speech_duration ≤ tB - tA) :
    (VoiceApi.processSeq cfg VoiceApi.vadResetState
      (ts1.map (fun t => (true, t)) ++ [(true, tA)] ++
        ts2.map (fun t => (false, t)) ++ [(false, tB)])).1 =
    List.replicate (cfg.speech_start_frames - 1) .silence ++
      List.replicate cfg.speech_end_frames .speaking ++
      [.speechEnded] := by
  rw [List.append_assoc, List.append_assoc, List.singleton_append,
    ← List.cons_append, ← List.append_assoc]
  rw [VoiceApi.processSeq_append,
    VoiceApi.burstPrefixRun cfg ts1 ts2 tA ha he h1 h2 (ne_of_gt htA)
      (fun u hu => not_lt.mpr (hmax u hu))]
  dsimp only
  simp only [VoiceApi.processSeq]
  rw [VoiceApi.processFrame_speaking_end cfg
    (VoiceApi.dequeAppendMany cfg.speech_start_frames
      (List.replicate cfg.speech_start_frames true)
      (List.replicate (cfg.speech_end_frames - 1) false))
    tA (some tA) tB (ne_of_gt htA) he hmin]
  have hsp : (.speaking : VoiceApi.SpeechState) ::
      List.replicate (cfg.speech_end_frames - 1) .speaking =
      List.replicate cfg.speech_end_frames .speaking := by
    rw [← List.replicate_succ]
    congr 1
    omega
  simp [← hsp]

/-- C6 witness: the default configuration (3 start frames, 10 end frames,
0.3 s minimum) on the burst with times 1..13. -/
theorem C6_witness :
    (VoiceApi.processSeq VoiceApi.defaultVADConfig VoiceApi.vadResetState
      ([(1 : ℚ), 2].map (fun t => (true, t)) ++ [(true, 3)] ++
        [(4 : ℚ), 5, 6, 7, 8, 9, 10, 11, 12].map (fun t => (false, t)) ++
        [(false, 13)])).1 =
    List.replicate 2 .silence ++ List.replicate 10 .speaking ++
      [.speechEnded] := by
  have h := C6_vad_transition_timing VoiceApi.defaultVADConfig
    [(1 : ℚ), 2] [(4 : ℚ), 5, 6, 7, 8, 9, 10, 11, 12] 3 13
    (by norm_num [VoiceApi.defaultVADConfig])
    (by norm_num [VoiceApi.defaultVADConfig])
    (by norm_num [VoiceApi.defaultVADConfig])
    (by norm_num [VoiceApi.defaultVADConfig])
    (by norm_num)
    (by intro t ht
        simp only [VoiceApi.defaultVADConfig, List.mem_cons,
          List.not_mem_nil, or_false] at ht ⊢
        rcases ht with h | h | h | h | h | h | h | h | h <;>
          rw [h] <;> norm_num)
    (by norm_num [VoiceApi.defaultVADConfig])
  simpa [VoiceApi.defaultVADConfig] using h

/-- C7 confirmed: for a burst that does enter SPEAKING
(`speech_start_frames` speech frames at times `ts1 ++ [tA]`) whose
accumulated duration `tB - tA` at the `speech_end_frames`-th consecutive
trailing silence frame is below `min_speech_duration` (the maximum never
being exceeded), the detector never returns SPEECH_ENDED anywhere in the
sequence — including arbitrarily many further silence frames `ts3` — and
at that frame it resets: the post-state is exactly the reset state
(SILENCE, cleared frame windows, cleared timing). -/
theorem C7_short_burst_resets_to_silence (cfg : VoiceApi.VADConfig)
    (ts1 ts2 ts3 : List ℚ) (tA tB : ℚ)
    (ha : 0 < cfg.speech_start_frames) (he : 0 < cfg.speech_end_frames)
    (h1 : ts1.length = cfg.speech_start_frames - 1)
    (h2 : ts2.length = cfg.speech_end_frames - 1)
    (htA : 0 < tA)
    (hmm : cfg.min_speech_duration ≤ cfg.max_speech_duration)
    (hmax : ∀ t ∈ ts2, t - tA ≤ cfg.max_speech_duration)
    (hminB : tB - tA < cfg.min_speech_duration) :
    (VoiceApi.processSeq cfg VoiceApi.vadResetState
      (ts1.map (fun t => (true, t)) ++ [(true, tA)] ++
        ts2.map (fun t => (false, t)) ++
        ((false, tB) :: ts3.map (fun t => (false, t))))).1 =
      List.replicate (cfg.speech_start_frames - 1) .silence ++
        List.replicate cfg.speech_end_frames .speaking ++
        List.replicate (ts3.length + 1) .silence ∧
    .speechEnded ∉ (VoiceApi.processSeq cfg VoiceApi.vadResetState
      (ts1.map (fun t => (true, t)) ++ [(true, tA)] ++
        ts2.map (fun t => (false, t)) ++
        ((false, tB) :: ts3.map (fun t => (false, t))))).1 ∧
    (VoiceApi.processSeq cfg VoiceApi.vadResetState
      (ts1.map (fun t => (true, t)) ++ [(true, tA)] ++
        ts2.map (fun t => (false, t)) ++ [(false, tB)])).2 =
      VoiceApi.vadResetState := by
  have hnotmax : ¬ (cfg.max_speech_duration < tB - tA) :=
    not_lt.mpr (le_trans (le_of_lt hminB) hmm)
  have hnotmin : ¬ (cfg.min_speech_duration ≤ tB - tA) := not_le.mpr hminB
  have hreset := VoiceApi.processFrame_speaking_reset cfg
    (VoiceApi.dequeAppendMany cfg.speech_start_frames
      (List.replicate cfg.speech_start_frames true)
      (List.replicate (cfg.speech_end_frames - 1) false))
    tA (some tA) tB (ne_of_gt htA) he hnotmax hnotmin
  have htail := VoiceApi.silenceFalseRun cfg ts3 ha VoiceApi.vadResetState rfl
  have hsp : (.speaking : VoiceApi.SpeechState) ::
      List.replicate (cfg.speech_end_frames - 1) .speaking =
      List.replicate cfg.speech_end_frames .speaking := by
    rw [← List.replicate_succ]
    congr 1
    omega
  have hout : (VoiceApi.processSeq cfg VoiceApi.vadResetState
      (ts1.map (fun t => (true, t)) ++ [(true, tA)] ++
        ts2.map (fun t => (false, t)) ++
        ((false, tB) :: ts3.map (fun t => (false, t))))).1 =
      List.replicate (cfg.speech_start_frames - 1) .silence ++
        List.replicate cfg.speech_end_frames .speaking ++
        List.replicate (ts3.length + 1) .silence := by
    rw [List.append_assoc, List.append_assoc, List.singleton_append,
      ← List.cons_append, ← List.append_assoc]
    rw [VoiceApi.processSeq_append,
      VoiceApi.burstPrefixRun cfg ts1 ts2 tA ha he h1 h2 (ne_of_gt htA)
        (fun u hu => not_lt.mpr (hmax u hu))]
    dsimp only
    simp only [VoiceApi.processSeq]
    rw [hreset]
    dsimp only
    rw [htail.1, List.replicate_succ]
    simp [← hsp, List.replicate_succ]
  refine ⟨hout, ?_, ?_⟩
  · rw [hout]
    simp only [List.mem_append, List.mem_replicate]
    rintro ((⟨-, h⟩ | ⟨-, h⟩) | ⟨-, h⟩) <;> exact absurd h (by simp)
  · rw [List.append_assoc, List.append_assoc, List.singleton_append,
      ← List.cons_append, ← List.append_assoc]
    rw [VoiceApi.processSeq_append,
      VoiceApi.burstPrefixRun cfg ts1 ts2 tA ha he h1 h2 (ne_of_gt htA)
        (fun u hu => not_lt.mpr (hmax u hu))]
    dsimp only
    simp only [VoiceApi.processSeq]
    rw [hreset]

/-- C7 witness: default configuration; three speech frames at times
1, 2, 3 then eleven silence frames at 3.01 .. 3.11 — total duration
0.11 s < 0.3 s — never report SPEECH_ENDED and reset at the tenth
trailing silence frame. -/
theorem C7_witness :
    .speechEnded ∉ (VoiceApi.processSeq VoiceApi.defaultVADConfig
      VoiceApi.vadResetState
      ([(1 : ℚ), 2].map (fun t => (true, t)) ++ [(true, 3)] ++
        [(301 / 100 : ℚ), 302 / 100, 303 / 100, 304 / 100, 305 / 100,
          306 / 100, 307 / 100, 308 / 100, 309 / 100].map
          (fun t => (false, t)) ++
        ((false, 310 / 100) :: [(311 / 100 : ℚ)].map
          (fun t => (false, t))))).1 ∧
    (VoiceApi.processSeq VoiceApi.defaultVADConfig VoiceApi.vadResetState
      ([(1 : ℚ), 2].map (fun t => (true, t)) ++ [(true, 3)] ++
        [(301 / 100 : ℚ), 302 / 100, 303 / 100, 304 / 100, 305 / 100,
          306 / 100, 307 / 100, 308 / 100, 309 / 100].map
          (fun t => (false, t)) ++ [(false, 310 / 100)])).2 =
      VoiceApi.vadResetState := by
  have h := C7_short_burst_resets_to_silence VoiceApi.defaultVADConfig
    [(1 : ℚ), 2]
    [(301 / 100 : ℚ), 302 / 100, 303 / 100, 304 / 100, 305 / 100,
      306 / 100, 307 / 100, 308 / 100, 309 / 100]
    [(311 / 100 : ℚ)] 3 (310 / 100)
    (by norm_num [VoiceApi.defaultVADConfig])
    (by norm_num [VoiceApi.defaultVADConfig])
    (by norm_num [VoiceApi.defaultVADConfig])
    (by norm_num [VoiceApi.defaultVADConfig])
    (by norm_num)
    (by norm_num [VoiceApi.defaultVADConfig])
    (by intro t ht
        simp only [VoiceApi.defaultVADConfig, List.mem_cons,
          List.not_mem_nil, or_false] at ht ⊢
        rcases ht with h | h | h | h | h | h | h | h | h <;>
          rw [h] <;> norm_num)
    (by norm_num [VoiceApi.defaultVADConfig])
  exact ⟨h.2.1, h.2.2⟩

/-- C10 confirmed: SPEECH_ENDED is absorbing.  From any detector state in
SPEECH_ENDED, every further `process_frame` call returns SPEECH_ENDED and
leaves the machine in SPEECH_ENDED, whatever the frames' classifications
and timestamps, until `reset()` is called (the machine itself has no
branch out of SPEECH_ENDED). -/
theorem C10_speech_ended_absorbing (cfg : VoiceApi.VADConfig)
    (s : VoiceApi.VADState) (frames : List (Bool × ℚ))
    (h : s.state = .speechEnded) :
    (VoiceApi.processSeq cfg s frames).1 =
      List.replicate frames.length .speechEnded ∧
    (VoiceApi.processSeq cfg s frames).2.state = .speechEnded := by
  induction frames generalizing s with
  | nil => simpa [VoiceApi.processSeq] using h
  | cons p rest ih =>
      obtain ⟨b, t⟩ := p
      simp only [VoiceApi.processSeq]
      rw [VoiceApi.processFrame_ended cfg s h b t]
      dsimp only
      have hnext := ih { s with speech_frames := VoiceApi.dequeAppend cfg.speech_start_frames s.speech_frames b } (by simpa using h)
      exact ⟨by rw [List.length_cons, List.replicate_succ, hnext.1],
        hnext.2⟩

/-- C10 witness: a concrete SPEECH_ENDED state fed two further frames
(one speech-classified, one silence-classified). -/
theorem C10_witness :
    (VoiceApi.processSeq VoiceApi.defaultVADConfig
      ⟨.speechEnded, [true], [true, false], some 1, some 2⟩
      [(true, 7), (false, 8)]).1 =
      List.replicate 2 .speechEnded ∧
    (VoiceApi.processSeq VoiceApi.defaultVADConfig
      ⟨.speechEnded, [true], [true, false], some 1, some 2⟩
      [(true, 7), (false, 8)]).2.state = .speechEnded := by
  simpa using C10_speech_ended_absorbing VoiceApi.defaultVADConfig
    ⟨.speechEnded, [true], [true, false], some 1, some 2⟩
    [(true, 7), (false, 8)] rfl

/-! ## Claims C1, C2, C8: the tool-call router -/

/-- C1 (code bug): on the exact state of the repository's own test
`test_handler_events.py::test_update_previous_field_emits_event`
(`family_name_p1` saved as `"OldValue"`, `current_index = 1`, so the
correction targets an already-completed field, `index_of(id) = 0 < 1`),
a batch holding one `update_previous_field` invocation with a new value
falls through to the unhandled-tool fallback of `handle_tool_calls`:
the state is not mutated (the answer keeps `"OldValue"`), no
`field_updated` event is emitted, and the response is the generic
`{"error": "Unhandled tool update_previous_field"}` payload instead of
the documented correction behaviour. -/
theorem C1_update_previous_field_falls_to_unhandled :
    VoiceApi.handleToolCalls VoiceApi.validAccept VoiceApi.pdfUnavailable
      VoiceApi.c1State
      [⟨"call_456", "update_previous_field",
        [("field_id", "family_name_p1"), ("value", "NewValue")]⟩] =
    .ok (VoiceApi.c1State,
      [⟨"call_456", "update_previous_field",
        .unhandledErr "Unhandled tool update_previous_field"⟩],
      []) := by
  rfl

/-- C2 (code bug): a batch whose second invocation is the declared tool
`navigate_to_field` makes `handle_tool_calls` raise `AttributeError`
(`FormState` has no `navigate_to_field` method): no structured response
is produced for it, and the response batch — including the first
invocation's response — is never sent. -/
theorem C2_navigate_to_field_raises_attribute_error :
    VoiceApi.handleToolCalls VoiceApi.validAccept VoiceApi.pdfUnavailable
      VoiceApi.initOne
      [⟨"call_1", "get_next_form_field", []⟩,
       ⟨"call_2", "navigate_to_field", [("field_id", "family_name_p1")]⟩] =
    .error (.attributeError
      "FormState object has no attribute navigate_to_field") := by
  rfl

/-- C8 confirmed: whenever a `validate_form_field` invocation is handled
on a state with a current field and the validator rejects the value, the
handling leaves `current_index` and `answers` unchanged, only writes the
validator's message into the errors map under the current field's id, and
responds with `is_valid: false` and that message. -/
theorem C8_validation_failure_only_sets_error
    (valid : VoiceApi.FormField → String → Bool × String)
    (pdf : List (String × String) → Except String (String × Nat))
    (s : VoiceApi.FormState) (field : VoiceApi.FormField) (cid : String)
    (args : List (String × String))
    (hf : s.current_field = some field)
    (hinv : (valid field (VoiceApi.dictGetD args "value" "")).1 = false) :
    VoiceApi.handleOne valid pdf s ⟨cid, "validate_form_field", args⟩ =
      .ok (s.set_error field.field_id
            (valid field (VoiceApi.dictGetD args "value" "")).2,
        ⟨cid, "validate_form_field",
          .validation false
            (valid field (VoiceApi.dictGetD args "value" "")).2⟩,
        [.validationResult field.field_id false]) ∧
    (s.set_error field.field_id
      (valid field (VoiceApi.dictGetD args "value" "")).2).current_index =
        s.current_index ∧
    (s.set_error field.field_id
      (valid field (VoiceApi.dictGetD args "value" "")).2).answers =
        s.answers ∧
    (s.set_error field.field_id
      (valid field (VoiceApi.dictGetD args "value" "")).2).validation_errors =
        VoiceApi.dictInsert field.field_id
          (valid field (VoiceApi.dictGetD args "value" "")).2
          s.validation_errors := by
  refine ⟨?_, rfl, rfl, rfl⟩
  simp only [VoiceApi.handleOne, if_true]
  rw [hf]
  simp [hinv]

/-- C8 witness: the rejecting validator on the fresh one-field state. -/
theorem C8_witness :
    VoiceApi.handleOne VoiceApi.validReject VoiceApi.pdfUnavailable
      VoiceApi.initOne ⟨"call_1", "validate_form_field", [("value", "")]⟩ =
      .ok ({ fields := [VoiceApi.fieldA], current_index := 0, answers := [],
             validation_errors := [("family_name_p1", "Value required")] },
        ⟨"call_1", "validate_form_field",
          .validation false "Value required"⟩,
        [.validationResult "family_name_p1" false]) ∧
    (VoiceApi.initOne.set_error "family_name_p1" "Value required").answers =
      VoiceApi.initOne.answers ∧
    (VoiceApi.initOne.set_error "family_name_p1"
      "Value required").current_index = VoiceApi.initOne.current_index := by
  have h := C8_validation_failure_only_sets_error VoiceApi.validReject
    VoiceApi.pdfUnavailable VoiceApi.initOne VoiceApi.fieldA "call_1"
    [("value", "")] (by decide) (by decide)
  exact ⟨h.1.trans (by rfl), h.2.2.1, h.2.1⟩

/-! ## Claim C9: the event emitter -/

/-- C9 confirmed: `emit_sync` never raises — it returns `.ok` on every
subscriber configuration — and each subscriber's outcome is the
per-subscriber delivery function of that subscriber alone (so one
subscriber's full queue, raising callback, or missing loop cannot affect
any other's delivery); moreover a queue subscriber with spare capacity
receives the event into its buffer, a non-raising synchronous callback is
invoked, and a coroutine callback with a running stored loop is scheduled
on it. -/
theorem C9_emit_sync_isolates_failures (ev : VoiceApi.EmittedEvent)
    (qs : List VoiceApi.QueueSub) (cs : List VoiceApi.CallableSub) :
    VoiceApi.emitSync ev qs cs =
      .ok (qs.map (VoiceApi.emitToQueueTotal ev),
           cs.map VoiceApi.emitToCallable) ∧
    (∀ q ∈ qs, (q.maxsize = 0 ∨ q.buffered.length < q.maxsize) →
      VoiceApi.emitToQueueTotal ev q =
        ({ q with buffered := q.buffered ++ [ev] }, .delivered)) ∧
    (∀ c ∈ cs,
      (c = .sync false → VoiceApi.emitToCallable c = .delivered) ∧
      (c = .coroutine true true →
        VoiceApi.emitToCallable c = .scheduled)) := by
  refine ⟨?_, ?_, ?_⟩
  · unfold VoiceApi.emitSync
    by_cases h0 : qs.length + cs.length = 0
    · have hq : qs = [] := List.length_eq_zero.mp (by omega)
      have hc : cs = [] := List.length_eq_zero.mp (by omega)
      subst hq
      subst hc
      simp
    · rw [if_neg h0, VoiceApi.mapM_emitToQueue]
      rfl
  · intro q hq hcap
    unfold VoiceApi.emitToQueueTotal
    rw [if_neg]
    rintro ⟨hne, hle⟩
    rcases hcap with h | h
    · exact hne h
    · omega
  · intro c hc
    constructor
    · rintro rfl
      rfl
    · rintro rfl
      rfl

/-- C9 witness: one full bounded queue, one queue with room, a raising
synchronous callback, a healthy synchronous callback, a coroutine
callback with no running loop, and a coroutine callback with a running
loop — the failures are dropped or logged in place and everyone else is
served, with no exception escaping. -/
theorem C9_witness :
    VoiceApi.emitSync (.fieldChanged "family_name_p1")
      [⟨1, [.formComplete]⟩, ⟨0, []⟩]
      [.sync true, .sync false, .coroutine false false,
        .coroutine true true] =
    .ok ([(⟨1, [.formComplete]⟩, .droppedQueueFull),
          (⟨0, [.fieldChanged "family_name_p1"]⟩, .delivered)],
         [.errorLogged, .delivered, .droppedNoLoop, .scheduled]) ∧
    VoiceApi.emitToCallable (.sync false) = .delivered ∧
    VoiceApi.emitToCallable (.coroutine true true) = .scheduled := by
  have h := C9_emit_sync_isolates_failures (.fieldChanged "family_name_p1")
    [⟨1, [.formComplete]⟩, ⟨0, []⟩]
    [.sync true, .sync false, .coroutine false false, .coroutine true true]
  refine ⟨h.1.trans (by rfl), ?_, ?_⟩
  · exact (h.2.2 (.sync false) (by simp)).1 rfl
  · exact (h.2.2 (.coroutine true true) (by simp)).2 rfl
